import Mathlib

/-!
Verification of the uni-api routing gateway (`src/api/index.py`).

This file gives a shallow embedding of the model-resolution and forwarding
engine of the gateway and proves the specified properties about it:

* the three-tier model-resolution algorithm `get_random_config_for_model`
  (index.py lines 324-383);
* the header-rewrite and target-URL logic of `openai_proxy`
  (index.py lines 453-483);
* the streaming relay `stream_generator` (index.py lines 491-514);
* the auth gate and the error-translation structure of `openai_proxy`
  (index.py lines 386-548);
* the cookie-based auth dependency `get_admin_api_key_from_cookie`
  (index.py lines 165-172) used by the config/mapping CRUD routes.

Python strings are embedded as Lean `String`; the Python string methods the
source uses (`str.lower`, `str.endswith`, slicing, `str.split`) are modelled
by the executable functions below, which operate on the character list of the
string so that concrete instances evaluate inside the kernel.
-/

namespace UniApi

/-! ## Python string primitives -/

/-- ASCII lower-casing of one character; models what Python's `str.lower()`
and the ASGI header normalisation do on the ASCII range (header names and
auth schemes are ASCII). -/
def lowerChar (c : Char) : Char :=
  if 65 ≤ c.toNat ∧ c.toNat ≤ 90 then Char.ofNat (c.toNat + 32) else c

/-- Models Python `s.lower()` (restricted to ASCII case folding). -/
def lowerStr (s : String) : String := ⟨s.data.map lowerChar⟩

/-- Models Python `s.endswith(suffix)`. -/
def endsWithStr (s sfx : String) : Bool := sfx.data.isSuffixOf s.data

/-- Models the Python slice `s[:-n]` (drop the last `n` characters). -/
def dropRightStr (s : String) (n : Nat) : String :=
  ⟨s.data.take (s.data.length - n)⟩

/-- Models Python `s.split()` with no argument: split on runs of whitespace
and discard empty fragments. -/
def splitWs (s : String) : List String :=
  ((s.data.splitOnP fun c => c = ' ' || c = '\t' || c = '\n' || c = '\r').map
    fun l => (⟨l⟩ : String)).filter fun t => t ≠ ""

theorem toNat_ofNat_of_isValidChar {n : Nat} (h : n.isValidChar) :
    (Char.ofNat n).toNat = n := by
  simp [Char.ofNat, h, Char.ofNatAux, Char.toNat, UInt32.toNat,
    BitVec.toNat_ofNatLt]

theorem lowerChar_lowerChar (c : Char) : lowerChar (lowerChar c) = lowerChar c := by
  unfold lowerChar
  by_cases h : 65 ≤ c.toNat ∧ c.toNat ≤ 90
  · have hv : (c.toNat + 32).isValidChar := Or.inl (by omega)
    have ht : (Char.ofNat (c.toNat + 32)).toNat = c.toNat + 32 :=
      toNat_ofNat_of_isValidChar hv
    simp only [if_pos h, ht]
    rw [if_neg (by omega)]
  · simp only [if_neg h]

theorem lowerStr_lowerStr (s : String) : lowerStr (lowerStr s) = lowerStr s := by
  unfold lowerStr
  cases s with
  | mk data =>
    simp [List.map_map, Function.comp_def, lowerChar_lowerChar]

/-! ## Data model

`APIConfig` mirrors the pydantic model of the same name in index.py
(lines 142-149): the fields the resolution and forwarding engine reads.
A Python `dict` whose keys are strings is embedded as an association list
with distinct keys; `model_mappings` maps unified model names to actual
model names, and the global mapping table maps a unified name to a
`vendor -> actual model` dictionary. -/

/-- Lookup in a Python `dict` embedded as an association list: models both
`k in d` (`isSome`) and `d[k]`. -/
def dictLookup {β : Type} (k : String) : List (String × β) → Option β
  | [] => none
  | kv :: t => if kv.1 = k then some kv.2 else dictLookup k t

structure APIConfig where
  id : String
  api_key : String
  base_url : String
  models : List String
  vendor : Option String
  model_mappings : Option (List (String × String))
deriving Repr, DecidableEq

/-- The global model-mapping table (`model_mappings` collection in the
store): unified name -> (vendor id -> actual model name). -/
abbrev GlobalMappings := List (String × List (String × String))

/-! ## Model resolution (`get_random_config_for_model`, lines 324-383) -/

/-- Tier 1 (lines 337-346): configs whose own `model_mappings` contain the
unified name and whose mapped actual model is in that config's `models`
list.  A config whose `model_mappings` is `None` (and, with identical
effect, an empty dict, which is falsy in Python) is skipped. -/
def tier1Candidates (model : String) (configs : List APIConfig) :
    List (APIConfig × String) :=
  configs.filterMap fun c =>
    match c.model_mappings with
    | none => none
    | some mm =>
      match dictLookup model mm with
      | none => none
      | some actual => if actual ∈ c.models then some (c, actual) else none

/-- Tier 2 (lines 355-373): look the unified name up in the global mapping
table; for each `(vendor, vendor_model)` pair, every config whose `vendor`
field equals that vendor and whose `models` list contains `vendor_model`
becomes a candidate paired with `vendor_model`. -/
def tier2Candidates (model : String) (configs : List APIConfig)
    (mappings : GlobalMappings) : List (APIConfig × String) :=
  match dictLookup model mappings with
  | none => []
  | some vendorModels =>
    vendorModels.flatMap fun vm =>
      ((configs.filter fun c =>
          decide (c.vendor = some vm.1 ∧ vm.2 ∈ c.models)).map
        fun c => (c, vm.2))

/-- Tier 3 (line 376): every config whose `models` list directly contains
the unified name, paired with the unified name itself. -/
def tier3Candidates (model : String) (configs : List APIConfig) :
    List (APIConfig × String) :=
  (configs.filter fun c => decide (model ∈ c.models)).map fun c => (c, model)

/-- Result of resolution: the tier that fired together with its (non-empty)
candidate list, or failure.  The Python function then picks one element of
the list with `random.choice`; the caller of this embedding models that
choice by selecting an arbitrary index into the returned list. -/
inductive Resolution where
  | found (tier : Nat) (candidates : List (APIConfig × String))
  | notFound
deriving Repr, DecidableEq

/-- The three-tier resolution of `get_random_config_for_model`
(lines 324-383).  The source gates tier 2 with `if model in mappings` and
`if vendor_configs:`; both gates together are exactly "the tier-2 candidate
list is non-empty", since a name absent from the table yields no
candidates. -/
def get_random_config_for_model (model : String) (configs : List APIConfig)
    (mappings : GlobalMappings) : Resolution :=
  if tier1Candidates model configs ≠ [] then
    .found 1 (tier1Candidates model configs)
  else if tier2Candidates model configs mappings ≠ [] then
    .found 2 (tier2Candidates model configs mappings)
  else if tier3Candidates model configs ≠ [] then
    .found 3 (tier3Candidates model configs)
  else .notFound

/-! ## Request transformer: target URL and header rewrite -/

/-- Target-URL construction of `openai_proxy` (lines 474-483): a trailing
`#` means "use the rest verbatim", a trailing `/` appends
`chat/completions`, anything else appends `/v1/chat/completions`. -/
def targetUrl (base_url : String) : String :=
  if endsWithStr base_url "#" then dropRightStr base_url 1
  else if endsWithStr base_url "/" then base_url ++ "chat/completions"
  else base_url ++ "/v1/chat/completions"

/-- A Python `dict` of headers: association list with distinct keys. -/
abbrev Headers := List (String × String)

/-- Models `headers = dict(request.headers)` (line 453) applied to the raw
wire headers: the ASGI layer hands Starlette the header names lower-cased
(the ASGI HTTP specification requires it), and building a `dict` from the
Starlette `Headers` mapping keeps, for each distinct name, the value of its
first occurrence. -/
def headersToDict (raw : List (String × String)) : Headers :=
  raw.foldl
    (fun d kv =>
      if (dictLookup (lowerStr kv.1) d).isSome then d
      else d ++ [(lowerStr kv.1, kv.2)])
    []

/-- Python `d.pop(k, None)` on a dict embedded as an association list with
distinct keys. -/
def popKey (d : Headers) (k : String) : Headers :=
  d.filter fun kv => decide (kv.1 ≠ k)

/-- Python dict assignment `d[k] = v`: overwrite in place if the key is
present, otherwise append the new binding. -/
def dictSet (d : Headers) (k v : String) : Headers :=
  if (dictLookup k d).isSome then
    d.map fun kv => if kv.1 = k then (k, v) else kv
  else d ++ [(k, v)]

/-- Header rewrite of `openai_proxy` (lines 454-471): pop `host`, pop every
key whose lower-casing is `authorization`, pop every key whose lower-casing
is `content-length`, then set `Content-Length` to the body's byte length
when the body is non-empty, and set `Authorization` to the selected
config's key. -/
def rewriteHeaders (inbound : Headers) (apiKey : String) (bodyLen : Nat) :
    Headers :=
  let h1 := popKey inbound "host"
  let h2 := h1.filter fun kv => decide (lowerStr kv.1 ≠ "authorization")
  let h3 := h2.filter fun kv => decide (lowerStr kv.1 ≠ "content-length")
  let h4 :=
    if bodyLen ≠ 0 then dictSet h3 "Content-Length" (toString bodyLen) else h3
  dictSet h4 "Authorization" ("Bearer " ++ apiKey)

/-- The whole header path of one request: wire headers -> `dict` -> rewrite
(lines 453-471). `bodyLen` is the byte length of the possibly re-encoded
body. -/
def prepareHeaders (raw : List (String × String)) (apiKey : String)
    (bodyLen : Nat) : Headers :=
  rewriteHeaders (headersToDict raw) apiKey bodyLen

/-! ## Auth gate of the proxy endpoint -/

/-- The inline bearer-token check of `openai_proxy` (lines 390-424),
returning `some status` when the request is rejected and `none` when the
key is accepted.  `auth_header.split()` is Python whitespace splitting; the
tuple unpacking raises `ValueError` unless it yields exactly two parts,
which the `except ValueError` turns into a 401. -/
def proxyAuth (allowed : List String) (admin : String)
    (authHeader : Option String) : Option Nat :=
  match authHeader with
  | none => some 401
  | some h =>
    match splitWs h with
    | [scheme, credentials] =>
      if lowerStr scheme ≠ "bearer" then some 401
      else if allowed = [] ∧ admin = "" then some 401
      else if credentials ≠ admin ∧ credentials ∉ allowed then some 401
      else none
    | _ => some 401

/-- `ALLOWED_API_KEYS` startup computation (lines 51-66): collect the
non-empty `API_KEY_1`..`API_KEY_5` environment variables; when none is set
and `ENVIRONMENT` is not `"production"`, fall back to the two development
keys. -/
def allowedKeysFromEnv (apiKeyEnv : List (Option String))
    (environment : Option String) : List String :=
  let keys := apiKeyEnv.filterMap fun o =>
    match o with
    | none => none
    | some s => if s ≠ "" then some s else none
  if keys = [] ∧ environment ≠ some "production" then
    ["dev_api_key_1", "dev_api_key_2"]
  else keys

/-- `ADMIN_API_KEY` startup computation (line 58): `os.environ.get` with
the default `"adminadmin"` when the variable is unset. -/
def adminKeyFromEnv (adminEnv : Option String) : String :=
  adminEnv.getD "adminadmin"

/-! ## Admin-route authentication (cookie based) -/

/-- `get_admin_api_key_from_cookie` (lines 165-172).  Python's
`if not auth_key or auth_key != ADMIN_API_KEY` rejects with 401 both when
the cookie is missing (or the empty string, which is falsy) and when it
differs from the admin key. -/
def get_admin_api_key_from_cookie (adminKey : String)
    (cookieAuthKey : Option String) : Except Nat String :=
  match cookieAuthKey with
  | none => .error 401
  | some k => if k = "" ∨ k ≠ adminKey then .error 401 else .ok k

/-- Auth outcome of the config/mapping CRUD routes (`/api/configs...` and
`/api/model-mappings...`, lines 174-321): every one of them depends on
`get_admin_api_key_from_cookie` and on nothing else; a bearer token in the
`Authorization` header is never consulted by these routes.  `some status`
means the request is rejected with that status. -/
def adminRouteStatus (adminKey : String) (cookieAuthKey : Option String)
    (_bearerToken : Option String) : Option Nat :=
  match get_admin_api_key_from_cookie adminKey cookieAuthKey with
  | .error s => some s
  | .ok _ => none

/-! ## The proxy pipeline (`openai_proxy`, lines 386-548) -/

/-- The slice of the parsed JSON body the engine reads:
`body_dict.get("model", "")` and `body_dict.get("stream", False)`.  An
absent `model` field is represented by the empty string, exactly as the
`.get` default does. -/
structure BodyDict where
  model : String
  stream : Bool
deriving Repr, DecidableEq

/-- One inbound request to `/v1/{path}`.  `parsedBody` is the result of
`json.loads(body)` when the body is non-empty: `none` models a JSON decode
error being raised.  When the body is empty the source never calls
`json.loads` and uses `{}`. -/
structure ProxyRequest where
  authHeader : Option String
  path : String
  bodyNonempty : Bool
  parsedBody : Option BodyDict
deriving Repr, DecidableEq

/-- Result of the buffered outbound call (lines 527-539): either a full
upstream response (relayed verbatim with its status), or an exception from
the transport or from `response.json()` decoding. -/
inductive TransportResult where
  | success (status : Nat)
  | failure (message : String)
deriving Repr, DecidableEq

/-- What the caller of `/v1/{path}` observes.
`httpError s` is a fastapi `HTTPException(s)` escaping the handler (fastapi
renders it as an HTTP `s` response); `errorEnvelope s e m` is the
`JSONResponse(content={"error": e, "message": m}, status_code=s)` built by
the handler's `except Exception` arm (lines 541-548); `unhandledException`
is a non-HTTPException exception escaping the handler entirely (the
framework's generic 500 "Internal Server Error", with no JSON envelope);
`streaming`/`buffered` are the two success shapes, carrying the outbound
target URL. -/
inductive ProxyOutcome where
  | httpError (status : Nat)
  | errorEnvelope (status : Nat) (error message : String)
  | unhandledException (exn : String)
  | streaming (url : String)
  | buffered (status : Nat) (url : String)
deriving Repr, DecidableEq

/-- Detail string of the 404 raised by `get_random_config_for_model`
(line 379). -/
def modelNotFoundDetail (model : String) : String :=
  "没有找到支持模型 " ++ model ++ " 的配置"

/-- Placeholder for `List.getD`; never selected, because the candidate list
is non-empty whenever it is consulted and the index is reduced modulo its
length. -/
def dummyCandidate : APIConfig × String := (⟨"", "", "", [], none, none⟩, "")

/-- Control flow of `openai_proxy` (lines 386-548), with the body of the
request abstracted to the fields the engine reads and the outbound call
abstracted to its result.

Order of the stages, exactly as in the source: bearer auth (390-424), path
check (427-428), body parse (431-432) — *outside* any `try`, so a JSON
decode error escapes unhandled —, empty-model check (435-437), then the
`try` block (441-548): resolution (`random.choice` modelled by an arbitrary
index `choiceIdx` into the candidate list), URL construction, the
stream/buffered split on `body_dict.get("stream", False)`, and the
`except Exception` arm that converts every exception raised inside the
`try` — including the 404 `HTTPException` of a failed resolution — into a
500 JSON envelope `{"error": ..., "message": str(e)}` (`str` of a fastapi
`HTTPException` is `"<status>: <detail>"`). -/
def openaiProxyModel (allowed : List String) (admin : String)
    (configs : List APIConfig) (mappings : GlobalMappings)
    (req : ProxyRequest) (choiceIdx : Nat) (transport : TransportResult) :
    ProxyOutcome :=
  match proxyAuth allowed admin req.authHeader with
  | some s => .httpError s
  | none =>
    if req.path ≠ "chat/completions" then .httpError 404
    else
      match (if req.bodyNonempty then req.parsedBody else some ⟨"", false⟩) with
      | none => .unhandledException "json.decoder.JSONDecodeError"
      | some d =>
        if d.model = "" then .httpError 400
        else
          match get_random_config_for_model d.model configs mappings with
          | .notFound =>
            .errorEnvelope 500 "处理请求时出错"
              (toString 404 ++ ": " ++ modelNotFoundDetail d.model)
          | .found _ cands =>
            let selected := cands.getD (choiceIdx % cands.length) dummyCandidate
            let url := targetUrl selected.1.base_url
            if d.stream then .streaming url
            else
              match transport with
              | .success s => .buffered s url
              | .failure m => .errorEnvelope 500 "处理请求时出错" m

/-! ## Streaming relay (`stream_generator`, lines 491-514) -/

/-- Byte strings as lists of bytes. -/
abbrev Bytes := List UInt8

/-- Behaviour of the upstream connection opened by `client.stream`:
a successful (2xx) response delivering its body in chunks, a non-success
response whose full error body is read at once, or a transport failure
raised after some chunks were already delivered. -/
inductive UpstreamStream where
  | success (chunks : List Bytes)
  | httpError (errorBody : Bytes)
  | failureAt (delivered : List Bytes) (message : String)
deriving Repr, DecidableEq

/-- The synthetic SSE error frame emitted on a mid-stream failure
(line 512). -/
def sseErrorBytes (message : String) : Bytes :=
  ("data: \x7b\"error\":\"流式处理出错: " ++ message ++ "\"\x7d\n\n").toUTF8.toList

/-- `stream_generator` (lines 491-514): on success relay every chunk of
`response.aiter_bytes()`, skipping falsy (empty) chunks; on a non-success
status yield the full error body once and stop; on an exception yield the
chunks delivered so far followed by one synthetic SSE error frame. -/
def stream_generator : UpstreamStream → List Bytes
  | .success chunks => chunks.filter fun c => decide (c ≠ [])
  | .httpError body => [body]
  | .failureAt delivered message =>
    (delivered.filter fun c => decide (c ≠ [])) ++ [sseErrorBytes message]

/-! ## Lemmas about the candidate tiers -/

theorem mem_tier1 {model : String} {configs : List APIConfig}
    {p : APIConfig × String} (h : p ∈ tier1Candidates model configs) :
    p.2 ∈ p.1.models := by
  rcases List.mem_filterMap.mp h with ⟨c, _, hf⟩
  split at hf
  · cases hf
  · split at hf
    · cases hf
    · split_ifs at hf with hm
      cases hf
      exact hm

theorem mem_tier2 {model : String} {configs : List APIConfig}
    {mappings : GlobalMappings} {p : APIConfig × String}
    (h : p ∈ tier2Candidates model configs mappings) : p.2 ∈ p.1.models := by
  unfold tier2Candidates at h
  split at h
  · cases h
  · rcases List.mem_flatMap.mp h with ⟨vm, _, hmem⟩
    rcases List.mem_map.mp hmem with ⟨c, hc, hpc⟩
    rcases List.mem_filter.mp hc with ⟨_, hdec⟩
    have hprop := of_decide_eq_true hdec
    cases hpc
    exact hprop.2

theorem mem_tier3 {model : String} {configs : List APIConfig}
    {p : APIConfig × String} (h : p ∈ tier3Candidates model configs) :
    p.2 ∈ p.1.models := by
  unfold tier3Candidates at h
  rcases List.mem_map.mp h with ⟨c, hc, hpc⟩
  rcases List.mem_filter.mp hc with ⟨_, hdec⟩
  cases hpc
  exact of_decide_eq_true hdec

/-! ## Claim theorems: model resolution -/

/-- Claim C1: model resolution follows strict three-tier precedence.  If at
least one config has a local `model_mappings` entry for the unified name
whose mapped actual model lies in that config's `models` list, resolution
returns the tier-1 candidate set (never tier 2 or tier 3); and a tier-3
result is only possible when both the tier-1 and the tier-2 candidate sets
are empty. -/
theorem resolution_tier_precedence (model : String) (configs : List APIConfig)
    (mappings : GlobalMappings) :
    ((∃ c ∈ configs, ∃ mm, c.model_mappings = some mm ∧
        ∃ actual, dictLookup model mm = some actual ∧ actual ∈ c.models) →
      get_random_config_for_model model configs mappings =
        .found 1 (tier1Candidates model configs))
    ∧ (∀ cands,
        get_random_config_for_model model configs mappings = .found 3 cands →
        tier1Candidates model configs = [] ∧
        tier2Candidates model configs mappings = []) := by
  constructor
  · rintro ⟨c, hc, mm, hmm, actual, hl, hmem⟩
    have hmem1 : (c, actual) ∈ tier1Candidates model configs :=
      List.mem_filterMap.mpr ⟨c, hc, by simp [hmm, hl, hmem]⟩
    have hne : tier1Candidates model configs ≠ [] := by
      intro hnil
      rw [hnil] at hmem1
      cases hmem1
    unfold get_random_config_for_model
    rw [if_pos hne]
  · intro cands h
    unfold get_random_config_for_model at h
    split_ifs at h with h1 h2 h3
    · injection h with h13 _
      exact absurd h13 (by decide)
    · injection h with h23 _
      exact absurd h23 (by decide)
    · exact ⟨not_not.mp h1, not_not.mp h2⟩

/-- Sample config with a self-consistent local mapping `u -> m2`. -/
def cfgLocal : APIConfig :=
  ⟨"2", "sk-b", "https://b.example", ["m2"], some "b", some [("u", "m2")]⟩

/-- Sample config that lists the unified name `u` directly (a tier-3
candidate that must lose to `cfgLocal`'s tier-1 mapping). -/
def cfgDirect : APIConfig :=
  ⟨"9", "sk-d", "https://d.example", ["u"], some "d", none⟩

/-- Witness for `resolution_tier_precedence`: with both a tier-1 and a
tier-3 config present, resolution returns the tier-1 candidate set. -/
theorem resolution_tier_precedence_witness :
    get_random_config_for_model "u" [cfgLocal, cfgDirect] [] =
      .found 1 (tier1Candidates "u" [cfgLocal, cfgDirect]) :=
  (resolution_tier_precedence "u" [cfgLocal, cfgDirect] []).1
    ⟨cfgLocal, by decide, [("u", "m2")], rfl, "m2", by decide, by decide⟩

/-- Claim C5: every `(config, actual_model)` pair produced by any tier of
resolution satisfies `actual_model ∈ config.models`; in particular a
config-local mapping whose target is missing from the config's `models`
list never becomes a candidate. -/
theorem resolution_candidate_membership (model : String)
    (configs : List APIConfig) (mappings : GlobalMappings) (tier : Nat)
    (cands : List (APIConfig × String))
    (h : get_random_config_for_model model configs mappings =
      .found tier cands) :
    ∀ p ∈ cands, p.2 ∈ p.1.models := by
  unfold get_random_config_for_model at h
  split_ifs at h with h1 h2 h3
  · injection h with _ hc
    subst hc
    exact fun _ hp => mem_tier1 hp
  · injection h with _ hc
    subst hc
    exact fun _ hp => mem_tier2 hp
  · injection h with _ hc
    subst hc
    exact fun _ hp => mem_tier3 hp

/-- Witness for `resolution_candidate_membership` at a concrete
resolution. -/
theorem resolution_candidate_membership_witness :
    ("m2" : String) ∈ cfgLocal.models :=
  resolution_candidate_membership "u" [cfgLocal] [] 1 [(cfgLocal, "m2")]
    (by decide) (cfgLocal, "m2") (by decide)

/-! ## Claim theorems: target URL and streaming -/

/-- Claim C4: the target URL is the base URL with a trailing `#` stripped
when it ends in `#`; the base URL with `chat/completions` appended when it
ends in `/`; and the base URL with `/v1/chat/completions` appended
otherwise. -/
theorem target_url_three_way (base_url : String) :
    (endsWithStr base_url "#" = true →
      targetUrl base_url = dropRightStr base_url 1)
    ∧ (endsWithStr base_url "#" = false → endsWithStr base_url "/" = true →
      targetUrl base_url = base_url ++ "chat/completions")
    ∧ (endsWithStr base_url "#" = false → endsWithStr base_url "/" = false →
      targetUrl base_url = base_url ++ "/v1/chat/completions") :=
  ⟨fun h => by simp [targetUrl, h],
   fun h1 h2 => by simp [targetUrl, h1, h2],
   fun h1 h2 => by simp [targetUrl, h1, h2]⟩

/-- Witness for `target_url_three_way` on all three shapes of base URL. -/
theorem target_url_three_way_witness :
    targetUrl "https://b.example/full#" = dropRightStr "https://b.example/full#" 1
    ∧ targetUrl "https://a.example/" = "https://a.example/" ++ "chat/completions"
    ∧ targetUrl "https://c.example" = "https://c.example" ++ "/v1/chat/completions" :=
  ⟨(target_url_three_way "https://b.example/full#").1 (by decide),
   (target_url_three_way "https://a.example/").2.1 (by decide) (by decide),
   (target_url_three_way "https://c.example").2.2 (by decide) (by decide)⟩

/-- Claim C6: in streaming mode, on a successful upstream response with no
transport failure, the concatenation of the yielded chunks is byte-exactly
the upstream's raw byte stream, whatever the chunking. -/
theorem streaming_byte_exact (chunks : List Bytes) :
    (stream_generator (.success chunks)).flatten = chunks.flatten := by
  simp only [stream_generator]
  induction chunks with
  | nil => rfl
  | cons c t ih =>
    by_cases hc : c = []
    · subst hc
      rw [List.filter_cons_of_neg (by simp), ih, List.flatten_cons,
        List.nil_append]
    · rw [List.filter_cons_of_pos (by simpa using hc), List.flatten_cons,
        List.flatten_cons, ih]

/-! ## Lemmas about the dict embedding -/

theorem dictLookup_eq_none {β : Type} {l : List (String × β)} {k : String}
    (h : ∀ kv ∈ l, kv.1 ≠ k) : dictLookup k l = none := by
  induction l with
  | nil => rfl
  | cons a t ih =>
    simp only [dictLookup]
    rw [if_neg (h a (by simp))]
    exact ih fun kv hkv => h kv (by simp [hkv])

theorem dictLookup_append_none {β : Type} {l : List (String × β)} {k : String}
    (l' : List (String × β)) (h : dictLookup k l = none) :
    dictLookup k (l ++ l') = dictLookup k l' := by
  induction l with
  | nil => rfl
  | cons a t ih =>
    simp only [dictLookup] at h
    by_cases ha : a.1 = k
    · rw [if_pos ha] at h
      cases h
    · rw [if_neg ha] at h
      rw [List.cons_append]
      simp only [dictLookup]
      rw [if_neg ha]
      exact ih h

theorem dictSet_of_lookup_none {d : Headers} {k : String} (v : String)
    (h : dictLookup k d = none) : dictSet d k v = d ++ [(k, v)] := by
  unfold dictSet
  rw [h]
  rfl

/-- Every key of `headersToDict raw` is lower-cased (it was inserted as
`lowerStr` of a wire header name). -/
theorem headersToDict_key_lower (raw : List (String × String)) :
    ∀ kv ∈ headersToDict raw, lowerStr kv.1 = kv.1 := by
  suffices haux : ∀ acc : Headers, (∀ kv ∈ acc, lowerStr kv.1 = kv.1) →
      ∀ kv ∈ raw.foldl
        (fun d kv =>
          if (dictLookup (lowerStr kv.1) d).isSome then d
          else d ++ [(lowerStr kv.1, kv.2)]) acc,
      lowerStr kv.1 = kv.1 by
    exact haux [] (by simp)
  induction raw with
  | nil =>
    intro acc hacc kv hkv
    exact hacc kv hkv
  | cons r t ih =>
    intro acc hacc kv hkv
    rw [List.foldl_cons] at hkv
    refine ih _ ?_ kv hkv
    intro kv' hkv'
    by_cases hd : (dictLookup (lowerStr r.1) acc).isSome
    · rw [if_pos hd] at hkv'
      exact hacc kv' hkv'
    · rw [if_neg hd] at hkv'
      rcases List.mem_append.mp hkv' with hmem | hmem
      · exact hacc kv' hmem
      · rw [List.mem_singleton.mp hmem]
        exact lowerStr_lowerStr r.1

/-- After the three drops of the header rewrite, every surviving entry's
key lower-cases to none of `host`, `authorization`, `content-length`. -/
theorem dropped_header_props (d : Headers)
    (hlow : ∀ kv ∈ d, lowerStr kv.1 = kv.1) :
    ∀ kv ∈ ((popKey d "host").filter fun kv =>
        decide (lowerStr kv.1 ≠ "authorization")).filter
        (fun kv => decide (lowerStr kv.1 ≠ "content-length")),
      lowerStr kv.1 ≠ "host" ∧ lowerStr kv.1 ≠ "authorization" ∧
        lowerStr kv.1 ≠ "content-length" := by
  intro kv hkv
  rcases List.mem_filter.mp hkv with ⟨hkv2, hcl⟩
  rcases List.mem_filter.mp hkv2 with ⟨hkv1, hauth⟩
  unfold popKey at hkv1
  rcases List.mem_filter.mp hkv1 with ⟨hkd, hhost⟩
  refine ⟨?_, of_decide_eq_true hauth, of_decide_eq_true hcl⟩
  rw [hlow kv hkd]
  exact of_decide_eq_true hhost

/-- Contract of the last two rewrite steps (`Content-Length` and
`Authorization` insertion) over any header dict `h3` that no longer holds
any host / authorization / content-length variant. -/
theorem dictSet_tail_contract (h3 : Headers) (apiKey : String) (bodyLen : Nat)
    (hp : ∀ kv ∈ h3, lowerStr kv.1 ≠ "host" ∧ lowerStr kv.1 ≠ "authorization"
      ∧ lowerStr kv.1 ≠ "content-length") :
    ((dictSet
        (if bodyLen ≠ 0 then dictSet h3 "Content-Length" (toString bodyLen)
          else h3) "Authorization" ("Bearer " ++ apiKey)).countP
        (fun kv => lowerStr kv.1 == "authorization") = 1)
    ∧ dictLookup "Authorization" (dictSet
        (if bodyLen ≠ 0 then dictSet h3 "Content-Length" (toString bodyLen)
          else h3) "Authorization" ("Bearer " ++ apiKey)) =
        some ("Bearer " ++ apiKey)
    ∧ (bodyLen ≠ 0 →
        ((dictSet
            (if bodyLen ≠ 0 then dictSet h3 "Content-Length" (toString bodyLen)
              else h3) "Authorization" ("Bearer " ++ apiKey)).countP
            (fun kv => lowerStr kv.1 == "content-length") = 1)
        ∧ dictLookup "Content-Length" (dictSet
            (if bodyLen ≠ 0 then dictSet h3 "Content-Length" (toString bodyLen)
              else h3) "Authorization" ("Bearer " ++ apiKey)) =
            some (toString bodyLen))
    ∧ ∀ kv ∈ dictSet
        (if bodyLen ≠ 0 then dictSet h3 "Content-Length" (toString bodyLen)
          else h3) "Authorization" ("Bearer " ++ apiKey),
        lowerStr kv.1 ≠ "host" := by
  have hauthnone3 : dictLookup "Authorization" h3 = none :=
    dictLookup_eq_none fun kv hkv heq => by
      apply (hp kv hkv).2.1
      rw [heq]
      decide
  have hclnone3 : dictLookup "Content-Length" h3 = none :=
    dictLookup_eq_none fun kv hkv heq => by
      apply (hp kv hkv).2.2
      rw [heq]
      decide
  have hzauth : h3.countP (fun kv => lowerStr kv.1 == "authorization") = 0 :=
    List.countP_eq_zero.mpr fun kv hkv => by
      simpa using (hp kv hkv).2.1
  have hzcl : h3.countP (fun kv => lowerStr kv.1 == "content-length") = 0 :=
    List.countP_eq_zero.mpr fun kv hkv => by
      simpa using (hp kv hkv).2.2
  have eAuthAuth : (lowerStr "Authorization" == "authorization") = true := by
    decide
  have eAuthCl : (lowerStr "Authorization" == "content-length") = false := by
    decide
  have eClAuth : (lowerStr "Content-Length" == "authorization") = false := by
    decide
  have eClCl : (lowerStr "Content-Length" == "content-length") = true := by
    decide
  by_cases hb : bodyLen ≠ 0
  · rw [if_pos hb,
      dictSet_of_lookup_none (toString bodyLen) hclnone3,
      dictSet_of_lookup_none ("Bearer " ++ apiKey) (by
        rw [dictLookup_append_none _ hauthnone3]
        simp only [dictLookup]
        rw [if_neg (by decide : ¬("Content-Length" : String) = "Authorization")])]
    refine ⟨?_, ?_, fun _ => ⟨?_, ?_⟩, ?_⟩
    · rw [List.countP_append, List.countP_append, hzauth]
      simp [List.countP_cons, eClAuth, eAuthAuth]
    · rw [List.append_assoc, dictLookup_append_none _ hauthnone3,
        List.singleton_append]
      simp only [dictLookup]
      rw [if_neg (by decide : ¬("Content-Length" : String) = "Authorization")]
      simp
    · rw [List.countP_append, List.countP_append, hzcl]
      simp [List.countP_cons, eClCl, eAuthCl]
    · rw [List.append_assoc, dictLookup_append_none _ hclnone3,
        List.singleton_append]
      simp only [dictLookup]
      simp
    · intro kv hkv
      rcases List.mem_append.mp hkv with hm | hm
      · rcases List.mem_append.mp hm with hm' | hm'
        · exact (hp kv hm').1
        · rw [List.mem_singleton.mp hm']
          exact (by decide : lowerStr "Content-Length" ≠ "host")
      · rw [List.mem_singleton.mp hm]
        exact (by decide : lowerStr "Authorization" ≠ "host")
  · rw [if_neg hb, dictSet_of_lookup_none ("Bearer " ++ apiKey) hauthnone3]
    refine ⟨?_, ?_, fun hbn => absurd hbn hb, ?_⟩
    · rw [List.countP_append, hzauth]
      simp [List.countP_cons, eAuthAuth]
    · rw [dictLookup_append_none _ hauthnone3]
      simp only [dictLookup]
      simp
    · intro kv hkv
      rcases List.mem_append.mp hkv with hm | hm
      · exact (hp kv hm).1
      · rw [List.mem_singleton.mp hm]
        exact (by decide : lowerStr "Authorization" ≠ "host")

/-! ## Claim theorems: header rewrite -/

/-- Claim C3: for every inbound wire-header list (any number of case
variants of Host / Authorization / Content-Length), every selected config
key and every body, the outbound header dict has exactly one
authorization-variant entry, namely `Authorization` with value
`Bearer <api_key>`; exactly one content-length-variant entry equal to the
body's byte length when the body is non-empty; and no host-variant
entry. -/
theorem header_rewrite_contract (raw : List (String × String))
    (apiKey : String) (bodyLen : Nat) :
    ((prepareHeaders raw apiKey bodyLen).countP
        (fun kv => lowerStr kv.1 == "authorization") = 1)
    ∧ dictLookup "Authorization" (prepareHeaders raw apiKey bodyLen) =
        some ("Bearer " ++ apiKey)
    ∧ (bodyLen ≠ 0 →
        ((prepareHeaders raw apiKey bodyLen).countP
            (fun kv => lowerStr kv.1 == "content-length") = 1)
        ∧ dictLookup "Content-Length" (prepareHeaders raw apiKey bodyLen) =
            some (toString bodyLen))
    ∧ ∀ kv ∈ prepareHeaders raw apiKey bodyLen, lowerStr kv.1 ≠ "host" := by
  have h := dictSet_tail_contract
    (((popKey (headersToDict raw) "host").filter fun kv =>
        decide (lowerStr kv.1 ≠ "authorization")).filter
      fun kv => decide (lowerStr kv.1 ≠ "content-length"))
    apiKey bodyLen
    (dropped_header_props (headersToDict raw) (headersToDict_key_lower raw))
  simpa only [prepareHeaders, rewriteHeaders] using h

/-- Sample wire headers with several case variants of the rewritten
names. -/
def sampleWireHeaders : List (String × String) :=
  [("Host", "gw.local"), ("AUTHORIZATION", "Bearer old"),
   ("Authorization", "Bearer old2"), ("Content-LENGTH", "3"),
   ("Accept", "application/json")]

/-- Witness for `header_rewrite_contract` on concrete headers with a
non-empty body. -/
theorem header_rewrite_contract_witness :
    ((prepareHeaders sampleWireHeaders "sk-a" 26).countP
        (fun kv => lowerStr kv.1 == "authorization") = 1)
    ∧ dictLookup "Authorization" (prepareHeaders sampleWireHeaders "sk-a" 26) =
        some ("Bearer " ++ "sk-a")
    ∧ ((prepareHeaders sampleWireHeaders "sk-a" 26).countP
        (fun kv => lowerStr kv.1 == "content-length") = 1)
    ∧ dictLookup "Content-Length" (prepareHeaders sampleWireHeaders "sk-a" 26) =
        some (toString 26) :=
  have h := header_rewrite_contract sampleWireHeaders "sk-a" 26
  ⟨h.1, h.2.1, (h.2.2.1 (by decide)).1, (h.2.2.1 (by decide)).2⟩

/-! ## Claim theorems: the proxy pipeline -/

/-- Claim C2 (code bug): a request whose model is in no resolution tier is
observed by the caller as a 500 JSON envelope, not as the 404 the spec
promises: the `HTTPException(404)` raised inside `get_random_config_for_model`
is swallowed by the handler's own `except Exception` (lines 541-548) and
re-emitted as `{"error": ..., "message": str(e)}` with status 500. -/
theorem model_not_found_observed_as_500 :
    openaiProxyModel ["k1"] "adminadmin" [] []
        ⟨some "Bearer k1", "chat/completions", true,
          some ⟨"no-such-model", false⟩⟩ 0 (.success 200)
      = .errorEnvelope 500 "处理请求时出错"
          (toString 404 ++ ": " ++ modelNotFoundDetail "no-such-model")
    ∧ openaiProxyModel ["k1"] "adminadmin" [] []
        ⟨some "Bearer k1", "chat/completions", true,
          some ⟨"no-such-model", false⟩⟩ 0 (.success 200)
      ≠ .httpError 404 := by
  decide

/-- Claim C7: in non-streaming mode, a transport failure of the outbound
call is always converted into the `{error, message}` JSON envelope at the
forwarding boundary; it never escapes as an unhandled exception. -/
theorem transport_failure_enveloped (allowed : List String) (admin : String)
    (configs : List APIConfig) (mappings : GlobalMappings)
    (authHeader : Option String) (d : BodyDict) (choiceIdx : Nat)
    (msg : String) (tier : Nat) (cands : List (APIConfig × String))
    (hauth : proxyAuth allowed admin authHeader = none)
    (hmodel : d.model ≠ "") (hstream : d.stream = false)
    (hres : get_random_config_for_model d.model configs mappings =
      .found tier cands) :
    openaiProxyModel allowed admin configs mappings
        ⟨authHeader, "chat/completions", true, some d⟩ choiceIdx (.failure msg)
      = .errorEnvelope 500 "处理请求时出错" msg
    ∧ ∀ e, openaiProxyModel allowed admin configs mappings
        ⟨authHeader, "chat/completions", true, some d⟩ choiceIdx (.failure msg)
      ≠ .unhandledException e := by
  have h : openaiProxyModel allowed admin configs mappings
      ⟨authHeader, "chat/completions", true, some d⟩ choiceIdx (.failure msg)
    = .errorEnvelope 500 "处理请求时出错" msg := by
    simp [openaiProxyModel, hauth, hmodel, hres, hstream]
  refine ⟨h, fun e heq => ?_⟩
  rw [h] at heq
  cases heq

/-- Witness for `transport_failure_enveloped` at a concrete request whose
outbound call fails. -/
theorem transport_failure_enveloped_witness :
    openaiProxyModel ["k1"] "adminadmin" [cfgDirect] []
        ⟨some "Bearer k1", "chat/completions", true, some ⟨"u", false⟩⟩ 0
        (.failure "connection refused")
      = .errorEnvelope 500 "处理请求时出错" "connection refused" :=
  (transport_failure_enveloped ["k1"] "adminadmin" [cfgDirect] []
    (some "Bearer k1") ⟨"u", false⟩ 0 "connection refused" 3
    [(cfgDirect, "u")] (by decide) (by decide) rfl (by decide)).1

/-- Claim C10: an authenticated request with a non-empty body that is not
valid JSON crashes in `json.loads` *before* the error-translation `try`
block: the exception escapes unhandled, so the caller receives neither a
400 nor the `{error, message}` envelope. -/
theorem invalid_json_escapes_unhandled (allowed : List String)
    (admin : String) (configs : List APIConfig) (mappings : GlobalMappings)
    (authHeader : Option String) (choiceIdx : Nat)
    (transport : TransportResult)
    (hauth : proxyAuth allowed admin authHeader = none) :
    openaiProxyModel allowed admin configs mappings
        ⟨authHeader, "chat/completions", true, none⟩ choiceIdx transport
      = .unhandledException "json.decoder.JSONDecodeError"
    ∧ (∀ s, openaiProxyModel allowed admin configs mappings
        ⟨authHeader, "chat/completions", true, none⟩ choiceIdx transport
      ≠ .httpError s)
    ∧ (∀ s e m, openaiProxyModel allowed admin configs mappings
        ⟨authHeader, "chat/completions", true, none⟩ choiceIdx transport
      ≠ .errorEnvelope s e m) := by
  have h : openaiProxyModel allowed admin configs mappings
      ⟨authHeader, "chat/completions", true, none⟩ choiceIdx transport
    = .unhandledException "json.decoder.JSONDecodeError" := by
    simp [openaiProxyModel, hauth]
  refine ⟨h, fun s heq => ?_, fun s e m heq => ?_⟩
  · rw [h] at heq
    cases heq
  · rw [h] at heq
    cases heq

/-- Witness for `invalid_json_escapes_unhandled` at a concrete request. -/
theorem invalid_json_escapes_unhandled_witness :
    openaiProxyModel ["k1"] "adminadmin" [] []
        ⟨some "Bearer k1", "chat/completions", true, none⟩ 0 (.success 200)
      = .unhandledException "json.decoder.JSONDecodeError" :=
  (invalid_json_escapes_unhandled ["k1"] "adminadmin" [] []
    (some "Bearer k1") 0 (.success 200) (by decide)).1

/-- The auth gate rejects everything with 401 when the runtime key list is
empty and the admin key is the empty string. -/
theorem proxyAuth_no_keys (authHeader : Option String) :
    proxyAuth [] "" authHeader = some 401 := by
  cases authHeader with
  | none => rfl
  | some h =>
    unfold proxyAuth
    split
    · rfl
    · split
      · split_ifs with h1 h2 h3
        · rfl
        · rfl
        · rfl
        · exact absurd ⟨rfl, rfl⟩ h2
      · rfl

/-- Claim C9 counterexample: with *nothing* configured in the environment
(no `API_KEY_i`, no `ADMIN_API_KEY`), the admin key falls back to the
hard-coded default `"adminadmin"`, and a request presenting that bearer
token is not rejected with 401 — it is forwarded upstream.  The system
does not fail closed under the empty configuration. -/
theorem no_env_keys_not_fail_closed :
    adminKeyFromEnv none = "adminadmin"
    ∧ allowedKeysFromEnv [none, none, none, none, none] (some "production") = []
    ∧ openaiProxyModel
        (allowedKeysFromEnv [none, none, none, none, none] (some "production"))
        (adminKeyFromEnv none) [cfgDirect] []
        ⟨some "Bearer adminadmin", "chat/completions", true, some ⟨"u", true⟩⟩
        0 (.success 200)
      = .streaming "https://d.example/v1/chat/completions"
    ∧ openaiProxyModel
        (allowedKeysFromEnv [none, none, none, none, none] (some "production"))
        (adminKeyFromEnv none) [cfgDirect] []
        ⟨some "Bearer adminadmin", "chat/completions", true, some ⟨"u", true⟩⟩
        0 (.success 200)
      ≠ .httpError 401 := by
  decide

/-- Claim C9 amended: when the *runtime* key configuration is actually
empty — the allow-list is `[]` (which needs `ENVIRONMENT=production` or
some `API_KEY_i` set, else dev keys are injected) and the admin key is the
empty string (which needs `ADMIN_API_KEY` explicitly set to `""`, since an
unset variable defaults to `"adminadmin"`) — every request to the `/v1`
proxy endpoint is rejected with 401, whatever bearer token it presents. -/
theorem runtime_empty_keys_fail_closed (configs : List APIConfig)
    (mappings : GlobalMappings) (req : ProxyRequest) (choiceIdx : Nat)
    (transport : TransportResult) :
    openaiProxyModel [] "" configs mappings req choiceIdx transport =
      .httpError 401 := by
  unfold openaiProxyModel
  rw [proxyAuth_no_keys]

/-! ## Claim theorems: admin-route authorization -/

/-- Claim C8 counterexample: the allow-listed non-admin key `"key1"`
calling a config-management route is rejected with 401, not with the 403
the claim states (the CRUD routes authenticate via the admin cookie and
ignore bearer tokens; `verify_api_key`, which would produce the 403, is
not a dependency of any route). -/
theorem non_admin_key_admin_route_not_403 :
    ("key1" : String) ∈ (["key1"] : List String)
    ∧ ("key1" : String) ≠ "adminadmin"
    ∧ adminRouteStatus "adminadmin" none (some "key1") = some 401
    ∧ adminRouteStatus "adminadmin" none (some "key1") ≠ some 403 := by
  decide

/-- Claim C8 amended: a request bearing an allow-listed non-admin token
and no valid admin cookie to a config/mapping CRUD route is rejected —
with 401 Unauthorized, not 403 — so such a key can never read or mutate
configs or mappings. -/
theorem admin_route_rejects_non_admin_bearer (adminKey : String)
    (allowed : List String) (token : String) (cookie : Option String)
    (_htok : token ∈ allowed) (_hne : token ≠ adminKey)
    (hcookie : ∀ k, cookie = some k → k = "" ∨ k ≠ adminKey) :
    adminRouteStatus adminKey cookie (some token) = some 401 := by
  unfold adminRouteStatus get_admin_api_key_from_cookie
  cases cookie with
  | none => rfl
  | some k =>
    rcases hcookie k rfl with hk | hk
    · simp [hk]
    · simp [hk]

/-- Witness for `admin_route_rejects_non_admin_bearer` with the concrete
allow-listed key `"key1"` and no cookie. -/
theorem admin_route_rejects_non_admin_bearer_witness :
    adminRouteStatus "adminadmin" none (some "key1") = some 401 :=
  admin_route_rejects_non_admin_bearer "adminadmin" ["key1"] "key1" none
    (by decide) (by decide) (fun _ hk => nomatch hk)

end UniApi
